import Mathlib

/-!
Shallow embedding of the event lifecycle / broadcast engine of the repository
(`src/lib/notifications/EventNotifier.ts`, method `refresh`).

Times: the code works with JavaScript millisecond clocks (`Date.now()`), while
event fields (`timestamp`, `refreshTimestamp`, `refresh`) are epoch seconds that
the code multiplies by 1000.  We keep that convention: `now` is in milliseconds,
record/event timestamps are in seconds.

Collaborators that live outside `src/` (the `Events` enumeration, the
`duration` helpers, the `Broadcaster`, the guild repository write-back) are
modelled from the spec where noted; the control flow of `refresh` itself is
translated line by line from the source.
-/

namespace Lilith

/-- Modelled from the spec: the `Events` enumeration (`src/types`) is not under
`src/`; the spec describes a fixed enumerated set of event kinds of which
`Helltide` is the one with a grace rule and a refresh phase. -/
inductive EventKey where
  | helltide
  | worldBoss
  | legion
deriving DecidableEq, Repr

/-- An event as fetched each tick: `timestamp` (epoch seconds) and, for
Helltide events, the `refresh` field (epoch seconds). Other kinds carry no
refresh field; the code only reads `refresh` after narrowing to Helltide. -/
structure Event where
  timestamp : Nat
  refresh : Nat
deriving DecidableEq, Repr

/-- The persisted notification record (fields the engine reads/writes):
`type`, `timestamp`, `refreshTimestamp`, `refreshed` (default false). -/
structure NotificationRecord where
  type : EventKey
  timestamp : Nat
  refreshTimestamp : Nat
  refreshed : Bool
deriving DecidableEq, Repr

/-- Modelled from the spec: `duration` helpers from `src/utils/Commons` (not
under `src/`) convert to milliseconds, as used by `duration.seconds(30)`,
`duration.minutes(5)`, `duration.hours(1)` in the source. -/
def durationSeconds (n : Nat) : Nat := n * 1000

/-- Minutes in milliseconds. -/
def durationMinutes (n : Nat) : Nat := durationSeconds (n * 60)

/-- Hours in milliseconds. -/
def durationHours (n : Nat) : Nat := durationMinutes (n * 60)

/-- Which broadcast trigger fired for an occurrence on a tick: the first
notification (caused by record creation) or the refresh notification. -/
inductive Trigger where
  | notify
  | refresh
deriving DecidableEq, Repr

/-- One guild's per-event-type delivery configuration (`guild.events`
entries): `roleId`, `channelId`, `messageId`, all optional in the source. -/
structure DeliverySetting where
  type : EventKey
  roleId : Option String
  channelId : Option String
  messageId : Option String
deriving DecidableEq, Repr

/-- A subscriber (guild) as read by the dispatcher: identifiers, locale and
its delivery settings. -/
structure Guild where
  id : String
  guildId : String
  locale : String
  events : List DeliverySetting
deriving DecidableEq, Repr

/-- The outbound message object: `content` plus the optional
`allowedMentions.roles` restriction the code attaches when a role target is
set.  (The embed list of the source is opaque rendering data and is omitted.) -/
structure OutMessage where
  content : String
  allowedMentionsRoles : Option (List String)
deriving DecidableEq, Repr

/-- Observable side effects of a tick, in program order: persistence create
(always attempted when the create branch runs, even if it will fail),
persistence update (setting `refreshed := true`), a broadcast call for one
delivery setting, and the message-id write-back after a successful call. -/
inductive Action where
  | persistCreate (r : NotificationRecord)
  | persistUpdate (t : EventKey) (ts : Nat)
  | broadcastSend (channelId : String) (message : OutMessage) (priorId : Option String)
  | writeBackId (guildId : String) (t : EventKey) (channelId : String) (id : Option String)
deriving DecidableEq, Repr

/-- Result of running the lifecycle tracker on one `(type, timestamp)`
occurrence for one tick: the record state afterwards, which trigger (if any)
fired — the broadcast block of the source runs exactly when a trigger fired —
and the persistence actions attempted, in order. -/
structure StepResult where
  record : Option NotificationRecord
  fired : Option Trigger
  actions : List Action
deriving DecidableEq, Repr

/-- The lifecycle tracker: lines 62–130 of `EventNotifier.refresh` for one
event, with `exist` the record found for `(key, event.timestamp)`, `now` the
current time in milliseconds, and `createOk` / `updateOk` whether the
persistence create / update succeeds (failures are caught and logged in the
source, so control flow continues either way). -/
def trackEvent (key : EventKey) (event : Event) (exist : Option NotificationRecord)
    (now : Nat) (createOk updateOk : Bool) : StepResult :=
  match exist with
  | none =>
    let eventDate := event.timestamp * 1000
    let delayDate := event.timestamp * 1000 + durationSeconds 30
    if key = EventKey.helltide ∧ now < delayDate then
      { record := none, fired := none, actions := [] }
    else
      let refreshTimestamp := if key = EventKey.helltide then event.refresh else 0
      let created : NotificationRecord :=
        { type := key, timestamp := event.timestamp,
          refreshTimestamp := refreshTimestamp, refreshed := false }
      let record := if createOk then some created else none
      if eventDate + durationMinutes 5 < now then
        { record := record, fired := none, actions := [Action.persistCreate created] }
      else
        { record := record, fired := some Trigger.notify,
          actions := [Action.persistCreate created] }
  | some r =>
    if 0 < r.refreshTimestamp ∧ r.refreshed = false then
      let startDate := r.timestamp * 1000
      let refreshDate := r.refreshTimestamp * 1000
      let endDate := startDate + durationHours 1
      if ¬(startDate ≤ now ∧ now ≤ endDate) ∨ now < refreshDate then
        { record := some r, fired := none, actions := [] }
      else
        let updated := if updateOk then { r with refreshed := true } else r
        { record := some updated, fired := some Trigger.refresh,
          actions := [Action.persistUpdate r.type r.timestamp] }
    else
      { record := some r, fired := none, actions := [] }

/-- The mention suffix the code appends for a role target. -/
def mentionSuffix (roleId : String) : String := " - <@&" ++ roleId ++ ">"

/-- Result of processing one delivery setting: the (shared, mutated) message
object afterwards, the actions performed, and the setting after any
message-id write-back. -/
structure SettingOutcome where
  message : OutMessage
  actions : List Action
  setting : DeliverySetting
deriving Repr

/-- Lines 153–158: when the setting has a role target, append the mention
suffix to the shared message and overwrite its `allowedMentions` with that
single role; otherwise leave the message as is. -/
def applyRoleMention (msg : OutMessage) (s : DeliverySetting) : OutMessage :=
  match s.roleId with
  | some r => { content := msg.content ++ mentionSuffix r,
                allowedMentionsRoles := some [r] }
  | none => msg

/-- Lines 169–182: handle the broadcaster's response for one setting: when
the response holds at least one element, write the first element's id back
into the setting; otherwise no write-back happens. -/
def settingSendResult (guildId : String) (key : EventKey) (msg : OutMessage)
    (s : DeliverySetting) (ch : String) (response : Option (List String)) :
    SettingOutcome :=
  match response with
  | some l =>
    if 1 ≤ l.length then
      { message := msg,
        actions := [Action.broadcastSend ch msg s.messageId,
                    Action.writeBackId guildId key ch l.head?],
        setting := { s with messageId := l.head? } }
    else
      { message := msg,
        actions := [Action.broadcastSend ch msg s.messageId],
        setting := s }
  | none =>
    { message := msg,
      actions := [Action.broadcastSend ch msg s.messageId],
      setting := s }

/-- One iteration of the `for setting of settings` loop (lines 150–183): the
role suffix is appended to the shared message and `allowedMentions` is
overwritten; a setting without a channel is skipped (after the mutation); the
broadcaster is called, and its response handled by `settingSendResult`.
`B` is the broadcaster collaborator (channelId, message, prior message id ↦
response). -/
def dispatchSetting (B : String → OutMessage → Option String → Option (List String))
    (guildId : String) (key : EventKey) (msg : OutMessage) (s : DeliverySetting) :
    SettingOutcome :=
  let msg := applyRoleMention msg s
  match s.channelId with
  | none => { message := msg, actions := [], setting := s }
  | some ch => settingSendResult guildId key msg s ch (B ch msg s.messageId)

/-- The settings loop, threading the single shared message object through the
iterations exactly as the source mutates it; returns the actions in order and
the settings after write-backs. -/
def dispatchSettings (B : String → OutMessage → Option String → Option (List String))
    (guildId : String) (key : EventKey) :
    OutMessage → List DeliverySetting → List Action × List DeliverySetting
  | _, [] => ([], [])
  | msg, s :: rest =>
    let o := dispatchSetting B guildId key msg s
    let t := dispatchSettings B guildId key o.message rest
    (o.actions ++ t.1, o.setting :: t.2)

/-- One iteration of the `for guild of guilds` loop (lines 136–184): the
message is built once per guild from the rendered title, the guild's settings
are filtered to the event type, and an empty filter skips the guild. -/
def dispatchGuild (B : String → OutMessage → Option String → Option (List String))
    (title : String) (key : EventKey) (g : Guild) :
    List Action × List DeliverySetting :=
  let base : OutMessage := { content := title, allowedMentionsRoles := none }
  let settings := g.events.filter (fun s => decide (s.type = key))
  if settings.length = 0 then ([], [])
  else dispatchSettings B g.guildId key base settings

/-- The broadcast block over all subscribed guilds; `title` renders the
message content from the guild's locale (the external `getTitle` renderer). -/
def dispatchAll (B : String → OutMessage → Option String → Option (List String))
    (title : String → String) (key : EventKey) : List Guild → List Action
  | [] => []
  | g :: gs => (dispatchGuild B (title g.locale) key g).1 ++ dispatchAll B title key gs

/-- Full per-event side-effect trace for one tick: the tracker's persistence
actions followed, exactly when a trigger fired, by the broadcast block. -/
def eventActions (B : String → OutMessage → Option String → Option (List String))
    (title : String → String) (guilds : List Guild)
    (key : EventKey) (event : Event) (exist : Option NotificationRecord)
    (now : Nat) (createOk updateOk : Bool) : List Action :=
  let res := trackEvent key event exist now createOk updateOk
  res.actions ++ (if res.fired.isSome then dispatchAll B title key guilds else [])

/-- The gateway status object; the tick only reads `event_service`
(`status.event_service` at line 52). -/
structure Status where
  event_service : Bool
deriving DecidableEq, Repr

/-- Result of a whole tick: the persisted records afterwards, one trace entry
per event processed (with the trigger that fired, if any), and the flat
side-effect list. -/
structure TickResult where
  db : List NotificationRecord
  trace : List (EventKey × Option Trigger)
  actions : List Action
deriving DecidableEq, Repr

/-- `findFirst` on the record store, keyed by `(type, timestamp)`. -/
def findRecord (db : List NotificationRecord) (key : EventKey) (ts : Nat) :
    Option NotificationRecord :=
  db.find? (fun r => decide (r.type = key ∧ r.timestamp = ts))

/-- Store the tracker's resulting record: replace the record for
`(key, ts)` when one exists, append it otherwise. -/
def upsertRecord (db : List NotificationRecord) (key : EventKey) (ts : Nat)
    (r : NotificationRecord) : List NotificationRecord :=
  if db.any (fun x => decide (x.type = key ∧ x.timestamp = ts)) then
    db.map (fun x => if x.type = key ∧ x.timestamp = ts then r else x)
  else db ++ [r]

/-- The `for [key, event] of Object.entries(events)` loop: each event type is
processed in sequence; per-event failures never abort the loop. -/
def processEvents (B : String → OutMessage → Option String → Option (List String))
    (title : String → String) (guildsOf : EventKey → List Guild)
    (createOk updateOk : Bool) (now : Nat) :
    List NotificationRecord → List (EventKey × Event) → TickResult
  | db, [] => { db := db, trace := [], actions := [] }
  | db, (key, event) :: rest =>
    let exist := findRecord db key event.timestamp
    let res := trackEvent key event exist now createOk updateOk
    let db1 :=
      match res.record with
      | none => db
      | some r => upsertRecord db key event.timestamp r
    let acts := eventActions B title (guildsOf key) key event exist now createOk updateOk
    let t := processEvents B title guildsOf createOk updateOk now db1 rest
    { db := t.db, trace := (key, res.fired) :: t.trace, actions := acts ++ t.actions }

/-- A whole tick (`refresh`, lines 50–188): fetch results are passed in;
a missing status, an unavailable event service, or missing events end the
tick early with no side effects. -/
def tick (B : String → OutMessage → Option String → Option (List String))
    (title : String → String) (guildsOf : EventKey → List Guild)
    (status : Option Status) (events : Option (List (EventKey × Event)))
    (db : List NotificationRecord) (createOk updateOk : Bool) (now : Nat) : TickResult :=
  match status with
  | none => { db := db, trace := [], actions := [] }
  | some st =>
    if st.event_service = false then { db := db, trace := [], actions := [] }
    else
      match events with
      | none => { db := db, trace := [], actions := [] }
      | some evs => processEvents B title guildsOf createOk updateOk now db evs

/-- Modelled from the spec: the `Broadcaster` collaborator is not under
`src/`; per the spec it returns the resulting message identifier (new or
edited) or null on failure, which the caller receives as a response holding
that single identifier. -/
def specBroadcast (result : Option String) : Option (List String) :=
  result.map (fun i => [i])

/-- Unfolding lemma: the trigger fired by the tracker on an absent record. -/
theorem trackEvent_none_fired (k : EventKey) (e : Event) (now : Nat) (c u : Bool) :
    (trackEvent k e none now c u).fired =
      if k = EventKey.helltide ∧ now < e.timestamp * 1000 + 30000 then none
      else if e.timestamp * 1000 + 300000 < now then none
      else some Trigger.notify := by
  simp only [trackEvent, durationSeconds, durationMinutes, durationHours]
  norm_num
  split_ifs <;> rfl

/-- Unfolding lemma: the record left by the tracker on an absent record. -/
theorem trackEvent_none_record (k : EventKey) (e : Event) (now : Nat) (c u : Bool) :
    (trackEvent k e none now c u).record =
      if k = EventKey.helltide ∧ now < e.timestamp * 1000 + 30000 then none
      else if c = true then
        some ⟨k, e.timestamp, if k = EventKey.helltide then e.refresh else 0, false⟩
      else none := by
  simp only [trackEvent, durationSeconds, durationMinutes, durationHours]
  norm_num
  split_ifs <;> rfl

/-- Unfolding lemma: the persistence actions of the tracker on an absent
record (the create is attempted whenever the grace check passes). -/
theorem trackEvent_none_actions (k : EventKey) (e : Event) (now : Nat) (c u : Bool) :
    (trackEvent k e none now c u).actions =
      if k = EventKey.helltide ∧ now < e.timestamp * 1000 + 30000 then []
      else [Action.persistCreate
              ⟨k, e.timestamp, if k = EventKey.helltide then e.refresh else 0, false⟩] := by
  simp only [trackEvent, durationSeconds, durationMinutes, durationHours]
  norm_num
  split_ifs <;> rfl

/-- Unfolding lemma: the trigger fired by the tracker on an existing record. -/
theorem trackEvent_some_fired (k : EventKey) (e : Event) (r : NotificationRecord)
    (now : Nat) (c u : Bool) :
    (trackEvent k e (some r) now c u).fired =
      if 0 < r.refreshTimestamp ∧ r.refreshed = false then
        if ¬(r.timestamp * 1000 ≤ now ∧ now ≤ r.timestamp * 1000 + 3600000) ∨
            now < r.refreshTimestamp * 1000 then none
        else some Trigger.refresh
      else none := by
  simp only [trackEvent, durationSeconds, durationMinutes, durationHours]
  norm_num
  split_ifs <;> rfl

/-- Unfolding lemma: the record left by the tracker on an existing record. -/
theorem trackEvent_some_record (k : EventKey) (e : Event) (r : NotificationRecord)
    (now : Nat) (c u : Bool) :
    (trackEvent k e (some r) now c u).record =
      if 0 < r.refreshTimestamp ∧ r.refreshed = false then
        if ¬(r.timestamp * 1000 ≤ now ∧ now ≤ r.timestamp * 1000 + 3600000) ∨
            now < r.refreshTimestamp * 1000 then some r
        else some (if u = true then { r with refreshed := true } else r)
      else some r := by
  simp only [trackEvent, durationSeconds, durationMinutes, durationHours]
  norm_num
  split_ifs <;> rfl

/-- Unfolding lemma: the persistence actions of the tracker on an existing
record. -/
theorem trackEvent_some_actions (k : EventKey) (e : Event) (r : NotificationRecord)
    (now : Nat) (c u : Bool) :
    (trackEvent k e (some r) now c u).actions =
      if 0 < r.refreshTimestamp ∧ r.refreshed = false then
        if ¬(r.timestamp * 1000 ≤ now ∧ now ≤ r.timestamp * 1000 + 3600000) ∨
            now < r.refreshTimestamp * 1000 then []
        else [Action.persistUpdate r.type r.timestamp]
      else [] := by
  simp only [trackEvent, durationSeconds, durationMinutes, durationHours]
  norm_num
  split_ifs <;> rfl

/-- C1: for a record with `refreshTimestamp = R > 0`, `refreshed = false` and
`timestamp = T`, the refresh-trigger fires on a tick iff the current time lies
in `[T, T + 3600 s]` (milliseconds: `[T*1000, T*1000 + 3600000]`) and is at
least `R` (`R*1000`); when it fires (and the persistence update succeeds) the
record's `refreshed` flag is set to true, and a refreshed record never fires
again on any later tick. -/
theorem refresh_fires_iff_window (k : EventKey) (e : Event) (T R now : Nat) (c u : Bool)
    (hR : 0 < R) :
    ((trackEvent k e (some ⟨k, T, R, false⟩) now c u).fired = some Trigger.refresh ↔
      (T * 1000 ≤ now ∧ now ≤ T * 1000 + 3600000) ∧ R * 1000 ≤ now)
    ∧ ((trackEvent k e (some ⟨k, T, R, false⟩) now c true).fired = some Trigger.refresh →
        (trackEvent k e (some ⟨k, T, R, false⟩) now c true).record = some ⟨k, T, R, true⟩)
    ∧ (∀ now₂ c₂ u₂,
        (trackEvent k e (some ⟨k, T, R, true⟩) now₂ c₂ u₂).fired = none ∧
        (trackEvent k e (some ⟨k, T, R, true⟩) now₂ c₂ u₂).record = some ⟨k, T, R, true⟩) := by
  refine ⟨?_, ?_, ?_⟩
  · rw [trackEvent_some_fired]
    split_ifs with h1 h2 <;> simp_all <;> omega
  · intro hf
    rw [trackEvent_some_fired] at hf
    rw [trackEvent_some_record]
    split_ifs at hf ⊢ <;> simp_all
  · intro now₂ c₂ u₂
    refine ⟨?_, ?_⟩
    · rw [trackEvent_some_fired]
      simp
    · rw [trackEvent_some_record]
      simp

/-- C1 witness: concrete instance with `T = 0`, `R = 1`, `now = 2000` ms. -/
theorem refresh_fires_iff_window_witness :
    ((trackEvent EventKey.helltide ⟨0, 1⟩ (some ⟨EventKey.helltide, 0, 1, false⟩)
        2000 true true).fired = some Trigger.refresh ↔
      (0 * 1000 ≤ 2000 ∧ 2000 ≤ 0 * 1000 + 3600000) ∧ 1 * 1000 ≤ 2000)
    ∧ ((trackEvent EventKey.helltide ⟨0, 1⟩ (some ⟨EventKey.helltide, 0, 1, false⟩)
          2000 true true).fired = some Trigger.refresh →
        (trackEvent EventKey.helltide ⟨0, 1⟩ (some ⟨EventKey.helltide, 0, 1, false⟩)
          2000 true true).record = some ⟨EventKey.helltide, 0, 1, true⟩)
    ∧ (∀ now₂ c₂ u₂,
        (trackEvent EventKey.helltide ⟨0, 1⟩ (some ⟨EventKey.helltide, 0, 1, true⟩)
          now₂ c₂ u₂).fired = none ∧
        (trackEvent EventKey.helltide ⟨0, 1⟩ (some ⟨EventKey.helltide, 0, 1, true⟩)
          now₂ c₂ u₂).record = some ⟨EventKey.helltide, 0, 1, true⟩) :=
  refresh_fires_iff_window EventKey.helltide ⟨0, 1⟩ 0 1 2000 true true (by decide)

/-- C2: once a record exists for a `(type, timestamp)` occurrence, a tick
never fires the notify-trigger again, never attempts another persistence
create, and the record stays present; and a tick whose notify-trigger fired
with a successful create leaves the record persisted, so subsequent ticks
fall under the first three conjuncts. -/
theorem notify_at_most_once (k : EventKey) (e : Event) (r : NotificationRecord)
    (now : Nat) (c u : Bool) :
    (trackEvent k e (some r) now c u).fired ≠ some Trigger.notify ∧
    ((trackEvent k e (some r) now c u).record).isSome = true ∧
    (∀ a ∈ (trackEvent k e (some r) now c u).actions, ∀ x, a ≠ Action.persistCreate x) ∧
    (∀ now₁ u₁, (trackEvent k e none now₁ true u₁).fired = some Trigger.notify →
      (trackEvent k e none now₁ true u₁).record =
        some ⟨k, e.timestamp, if k = EventKey.helltide then e.refresh else 0, false⟩) := by
  refine ⟨?_, ?_, ?_, ?_⟩
  · rw [trackEvent_some_fired]
    split_ifs <;> simp
  · rw [trackEvent_some_record]
    split_ifs <;> simp
  · rw [trackEvent_some_actions]
    split_ifs <;> simp
  · intro now₁ u₁ hf
    rw [trackEvent_none_fired] at hf
    rw [trackEvent_none_record]
    split_ifs at hf ⊢ <;> simp_all

/-- C10: only Helltide is subject to the grace period and the refresh phase:
a Helltide record is created with `refreshTimestamp` copied from the event's
`refresh` field (once the grace period has passed), every other kind is
created immediately — even within 30 s of the timestamp — with
`refreshTimestamp = 0`, and a record with `refreshTimestamp = 0` never enters
the refresh phase (the tick leaves it untouched and fires nothing). -/
theorem helltide_only_grace_refresh (e : Event) (now : Nat) (u c : Bool) :
    (e.timestamp * 1000 + 30000 ≤ now →
      (trackEvent EventKey.helltide e none now true u).record =
        some ⟨EventKey.helltide, e.timestamp, e.refresh, false⟩) ∧
    (∀ k, k ≠ EventKey.helltide →
      (trackEvent k e none now true u).record = some ⟨k, e.timestamp, 0, false⟩) ∧
    (∀ k r, r.refreshTimestamp = 0 →
      trackEvent k e (some r) now c u = ⟨some r, none, []⟩) := by
  refine ⟨?_, ?_, ?_⟩
  · intro hg
    rw [trackEvent_none_record]
    split_ifs <;> simp_all <;> omega
  · intro k hk
    rw [trackEvent_none_record]
    split_ifs <;> simp_all
  · intro k r hrf
    simp [trackEvent, hrf]

/-- C10 witness: Helltide created at `now = T + 30 s` copies the refresh
field; a world-boss occurrence inside the 30 s window is created at once with
`refreshTimestamp = 0` and its record never refreshes. -/
theorem helltide_only_grace_refresh_witness :
    ((trackEvent EventKey.helltide ⟨1000, 1600⟩ none 1030000 true true).record =
      some ⟨EventKey.helltide, 1000, 1600, false⟩) ∧
    ((trackEvent EventKey.worldBoss ⟨1000, 1600⟩ none 1000000 true true).record =
      some ⟨EventKey.worldBoss, 1000, 0, false⟩) ∧
    (trackEvent EventKey.worldBoss ⟨1000, 1600⟩
        (some ⟨EventKey.worldBoss, 1000, 0, false⟩) 1000000 true true =
      ⟨some ⟨EventKey.worldBoss, 1000, 0, false⟩, none, []⟩) :=
  ⟨(helltide_only_grace_refresh ⟨1000, 1600⟩ 1030000 true true).1 (by decide),
   (helltide_only_grace_refresh ⟨1000, 1600⟩ 1000000 true true).2.1
      EventKey.worldBoss (by decide),
   (helltide_only_grace_refresh ⟨1000, 1600⟩ 1000000 true true).2.2
      EventKey.worldBoss ⟨EventKey.worldBoss, 1000, 0, false⟩ rfl⟩

/-- C5 counterexample: a Helltide occurrence with timestamp `T = 1000` s
sighted at `now = T + 400 s` — far past the 30 s grace period — gets its
record created but fires no notification (the 5-minute staleness rule
suppresses it), refuting the claim that once at least 30 seconds have
elapsed the record is created and the notification fires. -/
theorem grace_claim_fails_when_stale :
    (1000 * 1000 + 30000 ≤ 1400000) ∧
    (trackEvent EventKey.helltide ⟨1000, 1600⟩ none 1400000 true true).record =
      some ⟨EventKey.helltide, 1000, 1600, false⟩ ∧
    (trackEvent EventKey.helltide ⟨1000, 1600⟩ none 1400000 true true).fired = none := by
  decide

/-- C5 (amended): a Helltide occurrence less than 30 s past its timestamp is
neither recorded nor notified on the current tick; on a later tick, once at
least 30 s have elapsed, the record is created and — provided no more than
5 minutes have elapsed — the notify-trigger fires. -/
theorem grace_suppression_amended (e : Event) (now : Nat) (u : Bool) :
    (now < e.timestamp * 1000 + 30000 →
      (trackEvent EventKey.helltide e none now true u).record = none ∧
      (trackEvent EventKey.helltide e none now true u).fired = none ∧
      (trackEvent EventKey.helltide e none now true u).actions = []) ∧
    (e.timestamp * 1000 + 30000 ≤ now → now ≤ e.timestamp * 1000 + 300000 →
      (trackEvent EventKey.helltide e none now true u).record =
        some ⟨EventKey.helltide, e.timestamp, e.refresh, false⟩ ∧
      (trackEvent EventKey.helltide e none now true u).fired = some Trigger.notify) := by
  constructor
  · intro hg
    refine ⟨?_, ?_, ?_⟩
    · rw [trackEvent_none_record]
      split_ifs <;> simp_all
    · rw [trackEvent_none_fired]
      split_ifs <;> simp_all
    · rw [trackEvent_none_actions]
      split_ifs <;> simp_all
  · intro h30 h300
    constructor
    · rw [trackEvent_none_record]
      split_ifs <;> simp_all <;> omega
    · rw [trackEvent_none_fired]
      split_ifs <;> simp_all <;> omega

/-- C5 witness: at `now = T + 5 s` nothing happens; at `now = T + 100 s` the
record is created and the notify-trigger fires. -/
theorem grace_suppression_amended_witness :
    ((trackEvent EventKey.helltide ⟨1000, 1600⟩ none 1005000 true true).record = none ∧
     (trackEvent EventKey.helltide ⟨1000, 1600⟩ none 1005000 true true).fired = none ∧
     (trackEvent EventKey.helltide ⟨1000, 1600⟩ none 1005000 true true).actions = []) ∧
    ((trackEvent EventKey.helltide ⟨1000, 1600⟩ none 1100000 true true).record =
        some ⟨EventKey.helltide, 1000, 1600, false⟩ ∧
     (trackEvent EventKey.helltide ⟨1000, 1600⟩ none 1100000 true true).fired =
        some Trigger.notify) :=
  ⟨(grace_suppression_amended ⟨1000, 1600⟩ 1005000 true).1 (by decide),
   (grace_suppression_amended ⟨1000, 1600⟩ 1100000 true).2 (by decide) (by decide)⟩

/-- C6: an occurrence first sighted more than 5 minutes past its timestamp
still has its record persisted — the persistence create is attempted (the
action is emitted whatever the create outcome) before the staleness check —
but no trigger fires on that tick, so no broadcast happens. -/
theorem stale_creates_without_broadcast (k : EventKey) (e : Event) (now : Nat) (u c : Bool)
    (hstale : e.timestamp * 1000 + 300000 < now) :
    (trackEvent k e none now true u).record =
      some ⟨k, e.timestamp, if k = EventKey.helltide then e.refresh else 0, false⟩ ∧
    (trackEvent k e none now c u).actions =
      [Action.persistCreate
        ⟨k, e.timestamp, if k = EventKey.helltide then e.refresh else 0, false⟩] ∧
    (trackEvent k e none now c u).fired = none := by
  refine ⟨?_, ?_, ?_⟩
  · rw [trackEvent_none_record]
    split_ifs with h
    · exact absurd h.2 (by omega)
    all_goals simp_all
  · rw [trackEvent_none_actions]
    split_ifs with h
    · exact absurd h.2 (by omega)
    all_goals rfl
  · rw [trackEvent_none_fired]
    split_ifs with h
    all_goals rfl

/-- C6 witness: a Helltide occurrence 400 s past its timestamp. -/
theorem stale_creates_without_broadcast_witness :
    (1000 * 1000 + 300000 < 1400000) ∧
    ((trackEvent EventKey.helltide ⟨1000, 1600⟩ none 1400000 true true).record =
        some ⟨EventKey.helltide, 1000, 1600, false⟩ ∧
     (trackEvent EventKey.helltide ⟨1000, 1600⟩ none 1400000 true true).actions =
        [Action.persistCreate ⟨EventKey.helltide, 1000, 1600, false⟩] ∧
     (trackEvent EventKey.helltide ⟨1000, 1600⟩ none 1400000 true true).fired = none) :=
  ⟨by decide,
   stale_creates_without_broadcast EventKey.helltide ⟨1000, 1600⟩ 1400000 true true (by decide)⟩

/-- C3: evaluation of the dispatcher at a guild with two role-bearing
settings for the same event type: because one shared message object is
mutated across the settings loop, the second broadcast call carries BOTH
mention suffixes in its content (its allowed-mentions list, by contrast, is
correctly scoped to the single second role), contradicting the claim that
each setting's message is built fresh with exactly one appended suffix. -/
theorem dispatch_accumulates_mention_suffixes :
    (dispatchGuild (fun _ _ _ => some ["m1"]) "Helltide" EventKey.helltide
      { id := "g", guildId := "g", locale := "en",
        events := [⟨EventKey.helltide, some "111", some "222", none⟩,
                   ⟨EventKey.helltide, some "333", some "444", none⟩] }).1 =
    [Action.broadcastSend "222" ⟨"Helltide - <@&111>", some ["111"]⟩ none,
     Action.writeBackId "g" EventKey.helltide "222" (some "m1"),
     Action.broadcastSend "444" ⟨"Helltide - <@&111> - <@&333>", some ["333"]⟩ none,
     Action.writeBackId "g" EventKey.helltide "444" (some "m1")] := by
  rfl

/-- C4: with the broadcaster modelled from the spec — a message identifier on
success, null on failure — a successful send/edit for a setting stores the
returned identifier as the setting's message id, while a failed one performs
no write-back and leaves the setting unchanged. -/
theorem writeback_iff_broadcast_success (guildId : String) (k : EventKey)
    (msg : OutMessage) (s : DeliverySetting) (ch : String) (result : Option String)
    (hch : s.channelId = some ch) :
    (∀ i, result = some i →
      (dispatchSetting (fun _ _ _ => specBroadcast result) guildId k msg s).setting =
        { s with messageId := some i }) ∧
    (result = none →
      (dispatchSetting (fun _ _ _ => specBroadcast result) guildId k msg s).setting = s ∧
      ∀ a ∈ (dispatchSetting (fun _ _ _ => specBroadcast result) guildId k msg s).actions,
        ∀ g t c v, a ≠ Action.writeBackId g t c v) := by
  constructor
  · intro i hi
    subst hi
    simp [dispatchSetting, hch, specBroadcast, settingSendResult]
  · intro hn
    subst hn
    simp [dispatchSetting, hch, specBroadcast, settingSendResult]

/-- C4 witness: one successful send stores the returned id "m"; one failed
send leaves the stored id untouched. -/
theorem writeback_iff_broadcast_success_witness :
    ((dispatchSetting (fun _ _ _ => specBroadcast (some "m")) "g" EventKey.helltide
        ⟨"t", none⟩ ⟨EventKey.helltide, none, some "c", none⟩).setting =
      ⟨EventKey.helltide, none, some "c", some "m"⟩) ∧
    ((dispatchSetting (fun _ _ _ => specBroadcast none) "g" EventKey.helltide
        ⟨"t", none⟩ ⟨EventKey.helltide, none, some "c", none⟩).setting =
      ⟨EventKey.helltide, none, some "c", none⟩) :=
  ⟨(writeback_iff_broadcast_success "g" EventKey.helltide ⟨"t", none⟩
      ⟨EventKey.helltide, none, some "c", none⟩ "c" (some "m") rfl).1 "m" rfl,
   ((writeback_iff_broadcast_success "g" EventKey.helltide ⟨"t", none⟩
      ⟨EventKey.helltide, none, some "c", none⟩ "c" none rfl).2 rfl).1⟩

/-- C7: a tick whose status fetch is absent, whose event service is reported
unavailable, or whose events fetch is absent ends early: the record store is
unchanged, no event is processed, and no side effect (persistence or
broadcast) is emitted. -/
theorem unavailable_tick_no_effects
    (B : String → OutMessage → Option String → Option (List String))
    (title : String → String) (guildsOf : EventKey → List Guild)
    (events : Option (List (EventKey × Event))) (db : List NotificationRecord)
    (c u : Bool) (now : Nat) (st : Status) :
    tick B title guildsOf none events db c u now = ⟨db, [], []⟩ ∧
    tick B title guildsOf (some ⟨false⟩) events db c u now = ⟨db, [], []⟩ ∧
    tick B title guildsOf (some st) none db c u now = ⟨db, [], []⟩ := by
  refine ⟨rfl, rfl, ?_⟩
  rcases st with ⟨b⟩
  cases b <;> rfl

/-- Helper: the broadcast block for one setting emits only broadcast-send and
write-back actions, never persistence actions. -/
theorem dispatchSetting_no_persist
    (B : String → OutMessage → Option String → Option (List String))
    (guildId : String) (k : EventKey) (msg : OutMessage) (s : DeliverySetting)
    (a : Action) (ha : a ∈ (dispatchSetting B guildId k msg s).actions) :
    (∀ x, a ≠ Action.persistCreate x) ∧ ∀ t ts, a ≠ Action.persistUpdate t ts := by
  unfold dispatchSetting at ha
  rcases s with ⟨st, sr, sc, sm⟩
  rcases sc with _ | ch
  · simp at ha
  · simp only at ha
    unfold settingSendResult at ha
    split at ha
    · split_ifs at ha
      · simp at ha
        rcases ha with ha | ha <;> subst ha <;> simp
      · simp at ha
        subst ha
        simp
    · simp at ha
      subst ha
      simp

/-- Helper: the settings loop emits only broadcast-send and write-back
actions. -/
theorem dispatchSettings_no_persist
    (B : String → OutMessage → Option String → Option (List String))
    (guildId : String) (k : EventKey) (msg : OutMessage) (ss : List DeliverySetting)
    (a : Action) (ha : a ∈ (dispatchSettings B guildId k msg ss).1) :
    (∀ x, a ≠ Action.persistCreate x) ∧ ∀ t ts, a ≠ Action.persistUpdate t ts := by
  induction ss generalizing msg with
  | nil => simp [dispatchSettings] at ha
  | cons s rest ih =>
    simp only [dispatchSettings, List.mem_append] at ha
    rcases ha with ha | ha
    · exact dispatchSetting_no_persist B guildId k msg s a ha
    · exact ih _ ha

/-- Helper: the guild loop emits only broadcast-send and write-back
actions. -/
theorem dispatchAll_no_persist
    (B : String → OutMessage → Option String → Option (List String))
    (title : String → String) (k : EventKey) (gs : List Guild)
    (a : Action) (ha : a ∈ dispatchAll B title k gs) :
    (∀ x, a ≠ Action.persistCreate x) ∧ ∀ t ts, a ≠ Action.persistUpdate t ts := by
  induction gs with
  | nil => simp [dispatchAll] at ha
  | cons g rest ih =>
    simp only [dispatchAll, List.mem_append] at ha
    rcases ha with ha | ha
    · simp only [dispatchGuild] at ha
      split_ifs at ha
      · simp at ha
      · exact dispatchSettings_no_persist B g.guildId k _ _ a ha
    · exact ih ha

/-- C8: a failed persistence create is caught: the create was attempted, no
record results, yet the notify-trigger still fires on that tick (provided the
occurrence passed the grace and staleness checks), and the events loop keeps
processing every remaining event type — the tick's trace always has one entry
per fetched event, whatever the persistence outcomes. -/
theorem create_failure_still_notifies (k : EventKey) (e : Event) (now : Nat) (u : Bool)
    (hg : k = EventKey.helltide → e.timestamp * 1000 + 30000 ≤ now)
    (hs : now ≤ e.timestamp * 1000 + 300000) :
    ((trackEvent k e none now false u).fired = some Trigger.notify ∧
     (trackEvent k e none now false u).record = none ∧
     (trackEvent k e none now false u).actions =
       [Action.persistCreate
         ⟨k, e.timestamp, if k = EventKey.helltide then e.refresh else 0, false⟩]) ∧
    (∀ B title guildsOf (c₁ u₁ : Bool) (db : List NotificationRecord)
        (evs : List (EventKey × Event)),
      (processEvents B title guildsOf c₁ u₁ now db evs).trace.length = evs.length) := by
  constructor
  · refine ⟨?_, ?_, ?_⟩
    · rw [trackEvent_none_fired]
      split_ifs with h h2
      · exact absurd (hg h.1) (by omega)
      · exact absurd h2 (by omega)
      · rfl
    · rw [trackEvent_none_record]
      split_ifs <;> simp_all
    · rw [trackEvent_none_actions]
      split_ifs with h
      · exact absurd (hg h.1) (by omega)
      all_goals rfl
  · intro B title guildsOf c₁ u₁ db evs
    induction evs generalizing db with
    | nil => rfl
    | cons ev rest ih =>
      rcases ev with ⟨k₁, e₁⟩
      simp [processEvents, ih]

/-- C8 witness: a Helltide occurrence 100 s past its timestamp with a failing
create still notifies, and a two-event tick always traces two entries. -/
theorem create_failure_still_notifies_witness :
    (((trackEvent EventKey.helltide ⟨1000, 1600⟩ none 1100000 false true).fired =
        some Trigger.notify ∧
      (trackEvent EventKey.helltide ⟨1000, 1600⟩ none 1100000 false true).record = none ∧
      (trackEvent EventKey.helltide ⟨1000, 1600⟩ none 1100000 false true).actions =
        [Action.persistCreate ⟨EventKey.helltide, 1000, 1600, false⟩])) ∧
    (processEvents (fun _ _ _ => none) (fun _ => "t") (fun _ => []) false true 1100000 []
        [(EventKey.helltide, ⟨1000, 1600⟩), (EventKey.worldBoss, ⟨2000, 0⟩)]).trace.length =
      [((EventKey.helltide : EventKey), (⟨1000, 1600⟩ : Event)),
       (EventKey.worldBoss, ⟨2000, 0⟩)].length :=
  ⟨(create_failure_still_notifies EventKey.helltide ⟨1000, 1600⟩ 1100000 true
      (by decide) (by decide)).1,
   (create_failure_still_notifies EventKey.helltide ⟨1000, 1600⟩ 1100000 true
      (by decide) (by decide)).2
     (fun _ _ _ => none) (fun _ => "t") (fun _ => []) false true []
     [(EventKey.helltide, ⟨1000, 1600⟩), (EventKey.worldBoss, ⟨2000, 0⟩)]⟩

/-- C9: when the refresh-trigger fires, the persistence update that sets
`refreshed := true` is the first side effect in the occurrence's trace — it
precedes every broadcast attempt, which emits no persistence action — and,
the update having succeeded, the record is left refreshed, so no later tick
fires the refresh-trigger again whatever became of the deliveries. -/
theorem refresh_update_precedes_broadcast
    (B : String → OutMessage → Option String → Option (List String))
    (title : String → String) (guilds : List Guild) (k : EventKey) (e : Event)
    (r : NotificationRecord) (now : Nat) (c : Bool)
    (hfire : (trackEvent k e (some r) now c true).fired = some Trigger.refresh) :
    (eventActions B title guilds k e (some r) now c true =
        Action.persistUpdate r.type r.timestamp :: dispatchAll B title k guilds ∧
      ∀ a ∈ dispatchAll B title k guilds,
        (∀ x, a ≠ Action.persistCreate x) ∧ ∀ t ts, a ≠ Action.persistUpdate t ts) ∧
    ((trackEvent k e (some r) now c true).record = some { r with refreshed := true } ∧
      ∀ now₂ c₂ u₂,
        (trackEvent k e (some { r with refreshed := true }) now₂ c₂ u₂).fired = none) := by
  rw [trackEvent_some_fired] at hfire
  split_ifs at hfire with h1 h2
  refine ⟨⟨?_, ?_⟩, ?_, ?_⟩
  · simp only [eventActions]
    rw [trackEvent_some_actions, if_pos h1, if_neg h2,
        trackEvent_some_fired, if_pos h1, if_neg h2]
    rfl
  · intro a ha
    exact dispatchAll_no_persist B title k guilds a ha
  · rw [trackEvent_some_record, if_pos h1, if_neg h2]
    simp
  · intro now₂ c₂ u₂
    rw [trackEvent_some_fired, if_neg (by simp)]

/-- C9 witness: a refreshable record at `T = 0`, `R = 1` with `now = 2000` ms
and no subscribed guilds. -/
theorem refresh_update_precedes_broadcast_witness :
    (eventActions (fun _ _ _ => none) (fun _ => "t") [] EventKey.helltide ⟨0, 1⟩
        (some ⟨EventKey.helltide, 0, 1, false⟩) 2000 true true =
      Action.persistUpdate EventKey.helltide 0 ::
        dispatchAll (fun _ _ _ => none) (fun _ => "t") EventKey.helltide [] ∧
     ∀ a ∈ dispatchAll (fun _ _ _ => none) (fun _ => "t") EventKey.helltide [],
       (∀ x, a ≠ Action.persistCreate x) ∧ ∀ t ts, a ≠ Action.persistUpdate t ts) ∧
    ((trackEvent EventKey.helltide ⟨0, 1⟩ (some ⟨EventKey.helltide, 0, 1, false⟩)
        2000 true true).record = some ⟨EventKey.helltide, 0, 1, true⟩ ∧
     ∀ now₂ c₂ u₂,
       (trackEvent EventKey.helltide ⟨0, 1⟩ (some ⟨EventKey.helltide, 0, 1, true⟩)
         now₂ c₂ u₂).fired = none) :=
  refresh_update_precedes_broadcast (fun _ _ _ => none) (fun _ => "t") []
    EventKey.helltide ⟨0, 1⟩ ⟨EventKey.helltide, 0, 1, false⟩ 2000 true (by decide)

end Lilith
